import Mathlib

/-!
Formal model of the plant simulation engine of the Digital Plant Growth &
Care System backend (`src/main.py`).

Modelling conventions:
* Python dicts holding plant / template fields become structures whose
  numeric fields are `Option Int`; a missing key reads through `Option.getD`
  with the same default the corresponding Python `dict.get` call uses.
* Python floats are modelled by exact rationals (`ℚ`).  For the decay and
  health computations exact arithmetic agrees with CPython on the whole
  in-range domain (integer stats and ideals inside `[0,100]`): there the
  double roundings of `s * 0.95`, `tot / 3.0` and the subtractions never
  move a value across an integer or half-integer boundary.  The sensor
  light normalization `(light / 1000.0) * 100` performs two IEEE binary64
  roundings that do cross integer boundaries (e.g. `light = 290` stores 28
  where the exact formula gives 29), so it is modelled operation by
  operation with `fl64`, the exact round-to-nearest-even onto the binary64
  grid (normal range; the light domain never reaches overflow or
  subnormals).  The model was checked to agree with CPython on every
  integer light value in `[-2000, 3000]` and on 20000 random doubles.
* `int(x)` is truncation toward zero (`pytrunc`); Python's `round` is
  round-half-to-even (`pyround`); `clamp` is always called with its default
  bounds `lo = 0`, `hi = 100` in `main.py`.
* datetime-valued fields (`planted_on`, `last_action_date`, `updated_at`,
  the `date` of a log entry) carry no engine logic and are omitted, as are
  the identifier/nickname fields.
-/

namespace PlantEngine

/-- Python `int(x)` on a real value: truncation toward zero. -/
def pytrunc (q : ℚ) : Int := if q < 0 then -(Int.floor (-q)) else Int.floor q

/-- Python `round(x)`: round half to even (banker's rounding). -/
def pyround (q : ℚ) : Int :=
  if q - Int.floor q < 1/2 then Int.floor q
  else if 1/2 < q - Int.floor q then Int.floor q + 1
  else if Int.floor q % 2 = 0 then Int.floor q
  else Int.floor q + 1

/-- `clamp(v, lo=0, hi=100)` from `main.py`; every engine call site uses the
default bounds. -/
def clampQ (v : ℚ) : ℚ := max 0 (min 100 v)

/-- `clamp` on the integer-valued expressions the engine feeds it; the
surrounding `int(...)` of the call sites is the identity there. -/
def clampI (v : Int) : Int := max 0 (min 100 v)

/-- IEEE binary64 rounding of an exact real (rational) value: round to the
nearest number of the form `m * 2 ^ (⌊log₂ |q|⌋ - 52)` with ties to even,
i.e. round-to-nearest-even in the normal range (the engine's light values
never reach overflow or subnormals).  Used to model the double arithmetic
of the sensor light normalization operation by operation. -/
def fl64 (q : ℚ) : ℚ :=
  if q = 0 then 0
  else pyround (q / 2 ^ (Int.log 2 |q| - 52)) * 2 ^ (Int.log 2 |q| - 52)

/-- A plant-template document, as read by the engine: only `ideal_moisture`
and `ideal_light` are consulted (via `dict.get` with default 50). An
unresolved template reference yields the empty dict, i.e. both fields
`none`. -/
structure Template where
  ideal_moisture : Option Int
  ideal_light : Option Int
deriving DecidableEq

/-- One entry of a plant's `action_log` (the `date` field is omitted). -/
structure LogEntry where
  type : String
  value : Int
  xp_reward : Int
deriving DecidableEq

/-- The mutable simulation state of a user plant, restricted to the fields
the engine reads or writes. -/
@[ext]
structure Plant where
  hydration : Option Int
  nutrition : Option Int
  sunlight : Option Int
  health_score : Option Int
  growth_points : Option Int
  stage : Option String
  action_log : List LogEntry
deriving DecidableEq

/-- The `STAGE_THRESHOLDS` dict of `main.py`. -/
def STAGE_THRESHOLDS (stage : String) : Int :=
  if stage = "mature" then 500
  else if stage = "juvenile" then 250
  else if stage = "sprout" then 100
  else 0

/-- `compute_health(plant, template)`:
`100 - avg(|hydration - ideal_moisture|, |sunlight - ideal_light|, |nutrition - 60|)`,
clamped to `[0,100]` and truncated to an integer. -/
def compute_health (plant : Plant) (template : Template) : Int :=
  let dev_m : ℚ := |((plant.hydration.getD 0 : Int) : ℚ) - ((template.ideal_moisture.getD 50 : Int) : ℚ)|
  let dev_l : ℚ := |((plant.sunlight.getD 0 : Int) : ℚ) - ((template.ideal_light.getD 50 : Int) : ℚ)|
  let dev_n : ℚ := |((plant.nutrition.getD 0 : Int) : ℚ) - 60|
  let avg_dev : ℚ := (dev_m + dev_l + dev_n) / 3
  let score : ℚ := 100 - avg_dev
  pytrunc (clampQ score)

/-- Hydration update of `apply_decay`: `int(clamp(hydration - 5))`. -/
def hdecay (h : Int) : Int := clampI (h - 5)

/-- Nutrition update of `apply_decay`: `int(clamp(nutrition - 2))`. -/
def ndecay (v : Int) : Int := clampI (v - 2)

/-- Sunlight update of `apply_decay`:
`int(clamp(round(sunlight * 0.95)))` with `0.95 = 19/20`. -/
def sdecay (s : Int) : Int := clampI (pyround ((s : ℚ) * (19/20)))

/-- `apply_decay(plant)` from `main.py`. -/
def apply_decay (plant : Plant) : Plant :=
  { plant with
    hydration := some (hdecay (plant.hydration.getD 0))
    nutrition := some (ndecay (plant.nutrition.getD 0))
    sunlight := some (sdecay (plant.sunlight.getD 0)) }

/-- `apply_growth(plant, template)` from `main.py`; the template argument is
accepted but never consulted, exactly as in the source. -/
def apply_growth (plant : Plant) (_template : Template) : Plant :=
  let plant1 :=
    if 70 < plant.health_score.getD 0 then
      { plant with growth_points := some (plant.growth_points.getD 0 + 10) }
    else plant
  let gp := plant1.growth_points.getD 0
  let stage :=
    if STAGE_THRESHOLDS "mature" ≤ gp then "mature"
    else if STAGE_THRESHOLDS "juvenile" ≤ gp then "juvenile"
    else if STAGE_THRESHOLDS "sprout" ≤ gp then "sprout"
    else "seed"
  { plant1 with stage := some stage }

/-- The error signalled by the care route for an unrecognized action type
(`400 "Unknown action"`, the spec's `InvalidActionError`). -/
inductive CareError where
  | invalidAction
deriving DecidableEq

/-- The recognized care-action types. -/
def recognizedTypes : List String := ["water", "fertilize", "sunlight_add", "trim", "repot"]

/-- The engine part of `care_action` in `main.py`: decay, dispatch on the
action type (an unrecognized type returns the 400 error before anything is
persisted), recompute health, apply growth, prepend the log entry.  Returns
the updated plant and the xp reward credited to the owner. -/
def care_action (plant : Plant) (template : Template) (actionType : String) :
    Except CareError (Plant × Int) :=
  let plant := apply_decay plant
  let step : Option (Plant × Int) :=
    if actionType = "water" then
      some ({ plant with hydration := some (clampI (plant.hydration.getD 0 + 20)) }, 5)
    else if actionType = "fertilize" then
      some ({ plant with nutrition := some (clampI (plant.nutrition.getD 0 + 15)) }, 7)
    else if actionType = "sunlight_add" then
      some ({ plant with sunlight := some (clampI (plant.sunlight.getD 0 + 10)) }, 4)
    else if actionType = "trim" then
      some ({ plant with health_score := some (clampI (plant.health_score.getD 0 + 5)) }, 6)
    else if actionType = "repot" then
      some ({ plant with health_score := some (clampI (plant.health_score.getD 0 + 10)) }, 10)
    else none
  match step with
  | none => Except.error CareError.invalidAction
  | some (plant, xp_reward) =>
    let plant := { plant with health_score := some (compute_health plant template) }
    let plant := apply_growth plant template
    let plant := { plant with action_log := ⟨actionType, 1, xp_reward⟩ :: plant.action_log }
    Except.ok (plant, xp_reward)

/-- Persisted effect of the `POST /api/plants/{id}/care` route: on success
the updated plant is written back and the xp reward is credited to the
owner; on the unrecognized-type error the handler returns a 400 response
before any write, so the stored plant is unchanged and no xp is credited. -/
def care_endpoint (plant : Plant) (template : Template) (actionType : String) : Plant × Int :=
  match care_action plant template actionType with
  | Except.ok r => r
  | Except.error _ => (plant, 0)

/-- A sensor packet as consumed by the ingest route (`SensorIn`). -/
structure SensorIn where
  moisture : Option ℚ
  temp : Option ℚ
  light : Option ℚ
  humidity : Option ℚ
deriving DecidableEq

/-- The engine part of `ingest_sensor` in `main.py`: overwrite hydration
from `moisture` and sunlight from `light` when present (no decay), then
recompute health and apply growth.  `temp` and `humidity` are only stored in
the audit collection and never touch the plant.  The hydration overwrite
`int(clamp(moisture))` involves no float arithmetic; the light overwrite
`int(clamp((light / 1000.0) * 100))` rounds the quotient and the product to
binary64, modelled by `fl64` around each operation. -/
def ingest_sensor (plant : Plant) (template : Template) (data : SensorIn) : Plant :=
  let plant :=
    match data.moisture with
    | some m => { plant with hydration := some (pytrunc (clampQ m)) }
    | none => plant
  let plant :=
    match data.light with
    | some l =>
      { plant with sunlight := some (pytrunc (clampQ (fl64 (fl64 (l / 1000) * 100)))) }
    | none => plant
  let plant := { plant with health_score := some (compute_health plant template) }
  apply_growth plant template

/-- The per-plant body of the `POST /api/growth/run` loop:
decay, recompute health, apply growth. -/
def growth_tick (plant : Plant) (template : Template) : Plant :=
  let plant := apply_decay plant
  let plant := { plant with health_score := some (compute_health plant template) }
  apply_growth plant template

/-- One engine invocation, with the template the route resolved for the
plant (the empty dict when the reference does not resolve). -/
inductive EngineOp where
  | care (template : Template) (actionType : String)
  | sensor (template : Template) (data : SensorIn)
  | tick (template : Template)

/-- Persisted plant state after one engine invocation. -/
def runOp (plant : Plant) : EngineOp → Plant
  | EngineOp.care t ty => (care_endpoint plant t ty).1
  | EngineOp.sensor t d => ingest_sensor plant t d
  | EngineOp.tick t => growth_tick plant t

/-- Persisted plant state after a finite sequence of engine invocations. -/
def runOps (plant : Plant) (ops : List EngineOp) : Plant :=
  ops.foldl runOp plant

/-- An engine invocation whose care action (if any) has a recognized type. -/
def opRecognized : EngineOp → Prop
  | EngineOp.care _ ty => ty ∈ recognizedTypes
  | EngineOp.sensor _ _ => True
  | EngineOp.tick _ => True

instance (op : EngineOp) : Decidable (opRecognized op) :=
  match op with
  | EngineOp.care _ ty => inferInstanceAs (Decidable (ty ∈ recognizedTypes))
  | EngineOp.sensor _ _ => inferInstanceAs (Decidable True)
  | EngineOp.tick _ => inferInstanceAs (Decidable True)

/-- The four stats read through `dict.get(_, 0)` all lie in `[0,100]`. -/
def StatsInRange (p : Plant) : Prop :=
  0 ≤ p.hydration.getD 0 ∧ p.hydration.getD 0 ≤ 100 ∧
  0 ≤ p.nutrition.getD 0 ∧ p.nutrition.getD 0 ≤ 100 ∧
  0 ≤ p.sunlight.getD 0 ∧ p.sunlight.getD 0 ≤ 100 ∧
  0 ≤ p.health_score.getD 0 ∧ p.health_score.getD 0 ≤ 100

instance (p : Plant) : Decidable (StatsInRange p) := by
  unfold StatsInRange
  infer_instance

/-- The stage derived from a growth-point count by the descending threshold
check of `apply_growth`. -/
def stageOf (gp : Int) : String :=
  if STAGE_THRESHOLDS "mature" ≤ gp then "mature"
  else if STAGE_THRESHOLDS "juvenile" ≤ gp then "juvenile"
  else if STAGE_THRESHOLDS "sprout" ≤ gp then "sprout"
  else "seed"

/-- Position of a stage in the order seed < sprout < juvenile < mature. -/
def stageRank (s : String) : Int :=
  if s = "mature" then 3
  else if s = "juvenile" then 2
  else if s = "sprout" then 1
  else 0

/-- The plant document created by `POST /api/plants` (`create_user_plant`). -/
def new_plant : Plant :=
  { hydration := some 50
    nutrition := some 50
    sunlight := some 50
    health_score := some 100
    growth_points := some 0
    stage := some "seed"
    action_log := [] }

/-- The seeded Rose template (`ideal_moisture = 60`, `ideal_light = 70`). -/
def roseTemplate : Template := { ideal_moisture := some 60, ideal_light := some 70 }

/-- The empty dict standing in for an unresolved template reference. -/
def emptyTemplate : Template := { ideal_moisture := none, ideal_light := none }

/-- A fully resolved template whose ideals equal the `dict.get` defaults. -/
def defaultTemplate : Template := { ideal_moisture := some 50, ideal_light := some 50 }

/-- A sensor packet carrying only temperature and humidity. -/
def tempHumidityReading : SensorIn :=
  { moisture := none, temp := some 22, light := none, humidity := some 55 }

/-- A sensor packet carrying only a light reading of 500. -/
def lightReading : SensorIn :=
  { moisture := none, temp := none, light := some 500, humidity := none }

/-- A sensor packet carrying only a light reading of 290 (a value whose
normalization is not float-exact). -/
def lightReading290 : SensorIn :=
  { moisture := none, temp := none, light := some 290, humidity := none }

/-- A plant at 95 growth points with recomputed health 75, still staged as a
seed. -/
def seedPlant95 : Plant :=
  { hydration := some 45
    nutrition := some 48
    sunlight := some 48
    health_score := some 75
    growth_points := some 95
    stage := some "seed"
    action_log := [] }

/-! ### Basic bounds for the numeric helpers -/

theorem clampI_nonneg (v : Int) : 0 ≤ clampI v := le_max_left _ _

theorem clampI_le_hundred (v : Int) : clampI v ≤ 100 := by
  unfold clampI
  omega

theorem clampQ_nonneg (v : ℚ) : 0 ≤ clampQ v := le_max_left _ _

theorem clampQ_le_hundred (v : ℚ) : clampQ v ≤ 100 := by
  unfold clampQ
  rcases le_total (100 : ℚ) v with h | h
  · simp [min_eq_left, h]
  · rcases le_total (0 : ℚ) v with h0 | h0 <;> simp [min_eq_right h] <;> linarith

theorem pytrunc_eq_floor (q : ℚ) (h : 0 ≤ q) : pytrunc q = Int.floor q := by
  unfold pytrunc
  rw [if_neg (not_lt.mpr h)]

theorem pytrunc_clampQ_nonneg (q : ℚ) : 0 ≤ pytrunc (clampQ q) := by
  rw [pytrunc_eq_floor _ (clampQ_nonneg q)]
  exact Int.le_floor.mpr (by exact_mod_cast clampQ_nonneg q)

theorem pytrunc_clampQ_le_hundred (q : ℚ) : pytrunc (clampQ q) ≤ 100 := by
  rw [pytrunc_eq_floor _ (clampQ_nonneg q)]
  have h : Int.floor (clampQ q) ≤ Int.floor (100 : ℚ) := Int.floor_mono (clampQ_le_hundred q)
  simpa using h

theorem pyround_le (q : ℚ) : (pyround q : ℚ) ≤ q + 1/2 := by
  unfold pyround
  have h1 : ((Int.floor q : Int) : ℚ) ≤ q := Int.floor_le q
  have h2 : q < Int.floor q + 1 := Int.lt_floor_add_one q
  split_ifs <;> push_cast <;> linarith

theorem le_pyround (q : ℚ) : q - 1/2 ≤ (pyround q : ℚ) := by
  unfold pyround
  have h1 : ((Int.floor q : Int) : ℚ) ≤ q := Int.floor_le q
  have h2 : q < Int.floor q + 1 := Int.lt_floor_add_one q
  split_ifs <;> push_cast <;> linarith

/-! ### Properties of the binary64 rounding model -/

theorem pyround_intCast (n : Int) : pyround (n : ℚ) = n := by
  unfold pyround
  simp [Int.floor_intCast]

theorem pyround_ge_floor (q : ℚ) : Int.floor q ≤ pyround q := by
  unfold pyround
  split_ifs <;> omega

theorem pyround_le_floor_add_one (q : ℚ) : pyround q ≤ Int.floor q + 1 := by
  unfold pyround
  split_ifs <;> omega

theorem pyround_mono (x y : ℚ) (h : x ≤ y) : pyround x ≤ pyround y := by
  have hf : Int.floor x ≤ Int.floor y := Int.floor_mono h
  rcases eq_or_lt_of_le hf with heq | hlt
  · unfold pyround
    rw [← heq]
    split_ifs <;> first | omega | linarith
  · calc pyround x ≤ Int.floor x + 1 := pyround_le_floor_add_one x
      _ ≤ Int.floor y := by omega
      _ ≤ pyround y := pyround_ge_floor y

theorem pyround_neg (x : ℚ) : pyround (-x) = -pyround x := by
  by_cases hx : x = ((Int.floor x : Int) : ℚ)
  · rw [hx, ← Int.cast_neg, pyround_intCast, pyround_intCast]
  · have h1 : ((Int.floor x : Int) : ℚ) < x :=
      lt_of_le_of_ne (Int.floor_le x) fun hc => hx hc.symm
    have h2 : x < Int.floor x + 1 := Int.lt_floor_add_one x
    have hneg : Int.floor (-x) = -Int.floor x - 1 := by
      rw [Int.floor_eq_iff]
      constructor
      · push_cast
        linarith
      · push_cast
        linarith
    unfold pyround
    rw [hneg]
    push_cast
    split_ifs <;> first | omega | linarith

/-- `Int.log 2` on a positive rational is characterized by the binade. -/
theorem int_log2_eq (r : ℚ) (k : Int) (h0 : 0 < r)
    (h1 : (2:ℚ) ^ k ≤ r) (h2 : r < (2:ℚ) ^ (k + 1)) : Int.log 2 r = k := by
  have hb : (1:ℕ) < 2 := by norm_num
  have hcast : ((2:ℕ) : ℚ) = 2 := by norm_num
  have ha : k ≤ Int.log 2 r := (Int.zpow_le_iff_le_log hb h0).mp (by rw [hcast]; exact h1)
  have hb2 : Int.log 2 r < k + 1 := (Int.lt_zpow_iff_log_lt hb h0).mp (by rw [hcast]; exact h2)
  omega

theorem fl64_zero : fl64 0 = 0 := by
  unfold fl64
  simp

/-- Evaluation rule for `fl64` once the binade and the rounded significand
are known. -/
theorem fl64_eval (q : ℚ) (k m : Int) (hq : q ≠ 0)
    (h1 : (2:ℚ) ^ k ≤ |q|) (h2 : |q| < (2:ℚ) ^ (k + 1))
    (hm : pyround (q / (2:ℚ) ^ (k - 52)) = m) :
    fl64 q = (m : ℚ) * (2:ℚ) ^ (k - 52) := by
  unfold fl64
  rw [if_neg hq, int_log2_eq |q| k (abs_pos.mpr hq) h1 h2, hm]

theorem le_fl64 (q : ℚ) (hq : 0 < q) : (2:ℚ) ^ (Int.log 2 q) ≤ fl64 q := by
  have hne : q ≠ 0 := ne_of_gt hq
  have habs : |q| = q := abs_of_pos hq
  have hepos : (0:ℚ) < 2 ^ (Int.log 2 q - 52) := by positivity
  have hlow : (2:ℚ) ^ (Int.log 2 q) ≤ q := by
    have h := Int.zpow_log_le_self (b := 2) (R := ℚ) (by norm_num) hq
    have hcast : ((2:ℕ) : ℚ) = 2 := by norm_num
    rw [hcast] at h
    exact h
  have hy : (2:ℚ) ^ (52:ℤ) ≤ q / 2 ^ (Int.log 2 q - 52) := by
    rw [le_div_iff₀ hepos, ← zpow_add₀ (by norm_num : (2:ℚ) ≠ 0)]
    have he : (52:ℤ) + (Int.log 2 q - 52) = Int.log 2 q := by omega
    rw [he]
    exact hlow
  have hp : (2:ℚ) ^ (52:ℤ) - 1 < (pyround (q / 2 ^ (Int.log 2 q - 52)) : ℚ) := by
    have h := le_pyround (q / 2 ^ (Int.log 2 q - 52))
    linarith
  have hp1 : ((4503599627370495 : Int) : ℚ) < (pyround (q / 2 ^ (Int.log 2 q - 52)) : ℚ) := by
    have h : (2:ℚ) ^ (52:ℤ) - 1 = ((4503599627370495 : Int) : ℚ) := by norm_num
    linarith [hp, h.symm.le]
  have hp2 : (4503599627370496 : Int) ≤ pyround (q / 2 ^ (Int.log 2 q - 52)) := by
    have h : (4503599627370495 : Int) < pyround (q / 2 ^ (Int.log 2 q - 52)) := by
      exact_mod_cast hp1
    omega
  have hp3 : (2:ℚ) ^ (52:ℤ) ≤ (pyround (q / 2 ^ (Int.log 2 q - 52)) : ℚ) := by
    have h : ((4503599627370496 : Int) : ℚ) ≤ (pyround (q / 2 ^ (Int.log 2 q - 52)) : ℚ) := by
      exact_mod_cast hp2
    have h2 : (2:ℚ) ^ (52:ℤ) = ((4503599627370496 : Int) : ℚ) := by norm_num
    rw [h2]
    exact h
  have hfl : fl64 q = (pyround (q / 2 ^ (Int.log 2 q - 52)) : ℚ) * 2 ^ (Int.log 2 q - 52) := by
    unfold fl64
    rw [if_neg hne, habs]
  rw [hfl]
  calc (2:ℚ) ^ (Int.log 2 q)
      = (2:ℚ) ^ (52:ℤ) * 2 ^ (Int.log 2 q - 52) := by
        rw [← zpow_add₀ (by norm_num : (2:ℚ) ≠ 0)]
        congr 1
        omega
    _ ≤ (pyround (q / 2 ^ (Int.log 2 q - 52)) : ℚ) * 2 ^ (Int.log 2 q - 52) :=
        mul_le_mul_of_nonneg_right hp3 (le_of_lt hepos)

theorem fl64_le (q : ℚ) (hq : 0 < q) : fl64 q ≤ (2:ℚ) ^ (Int.log 2 q + 1) := by
  have hne : q ≠ 0 := ne_of_gt hq
  have habs : |q| = q := abs_of_pos hq
  have hepos : (0:ℚ) < 2 ^ (Int.log 2 q - 52) := by positivity
  have hhigh : q < (2:ℚ) ^ (Int.log 2 q + 1) := by
    have h := Int.lt_zpow_succ_log_self (b := 2) (R := ℚ) (by norm_num) q
    have hcast : ((2:ℕ) : ℚ) = 2 := by norm_num
    rw [hcast] at h
    exact h
  have hy : q / 2 ^ (Int.log 2 q - 52) < (2:ℚ) ^ (53:ℤ) := by
    rw [div_lt_iff₀ hepos, ← zpow_add₀ (by norm_num : (2:ℚ) ≠ 0)]
    have he : (53:ℤ) + (Int.log 2 q - 52) = Int.log 2 q + 1 := by omega
    rw [he]
    exact hhigh
  have hp : (pyround (q / 2 ^ (Int.log 2 q - 52)) : ℚ) < (2:ℚ) ^ (53:ℤ) + 1/2 := by
    have h := pyround_le (q / 2 ^ (Int.log 2 q - 52))
    linarith
  have hp2 : pyround (q / 2 ^ (Int.log 2 q - 52)) ≤ (9007199254740992 : Int) := by
    have h1 : (pyround (q / 2 ^ (Int.log 2 q - 52)) : ℚ) <
        ((9007199254740993 : Int) : ℚ) := by
      have h : (2:ℚ) ^ (53:ℤ) + 1/2 < ((9007199254740993 : Int) : ℚ) := by norm_num
      linarith
    have h2 : pyround (q / 2 ^ (Int.log 2 q - 52)) < (9007199254740993 : Int) := by
      exact_mod_cast h1
    omega
  have hp3 : (pyround (q / 2 ^ (Int.log 2 q - 52)) : ℚ) ≤ (2:ℚ) ^ (53:ℤ) := by
    have h : ((9007199254740992 : Int) : ℚ) = (2:ℚ) ^ (53:ℤ) := by norm_num
    rw [← h]
    exact_mod_cast hp2
  have hfl : fl64 q = (pyround (q / 2 ^ (Int.log 2 q - 52)) : ℚ) * 2 ^ (Int.log 2 q - 52) := by
    unfold fl64
    rw [if_neg hne, habs]
  rw [hfl]
  calc (pyround (q / 2 ^ (Int.log 2 q - 52)) : ℚ) * 2 ^ (Int.log 2 q - 52)
      ≤ (2:ℚ) ^ (53:ℤ) * 2 ^ (Int.log 2 q - 52) :=
        mul_le_mul_of_nonneg_right hp3 (le_of_lt hepos)
    _ = (2:ℚ) ^ (Int.log 2 q + 1) := by
        rw [← zpow_add₀ (by norm_num : (2:ℚ) ≠ 0)]
        congr 1
        omega

theorem fl64_pos (q : ℚ) (hq : 0 < q) : 0 < fl64 q :=
  lt_of_lt_of_le (by positivity) (le_fl64 q hq)

theorem fl64_neg (q : ℚ) : fl64 (-q) = -fl64 q := by
  by_cases hq : q = 0
  · subst hq
    rw [neg_zero, fl64_zero, neg_zero]
  · unfold fl64
    rw [if_neg (neg_ne_zero.mpr hq), if_neg hq, abs_neg, neg_div, pyround_neg]
    push_cast
    ring

theorem fl64_mono_pos (x y : ℚ) (hx : 0 < x) (hxy : x ≤ y) : fl64 x ≤ fl64 y := by
  have hy : 0 < y := lt_of_lt_of_le hx hxy
  have hlog : Int.log 2 x ≤ Int.log 2 y := Int.log_mono_right hx hxy
  rcases eq_or_lt_of_le hlog with heq | hlt
  · unfold fl64
    rw [if_neg (ne_of_gt hx), if_neg (ne_of_gt hy), abs_of_pos hx, abs_of_pos hy, ← heq]
    have hepos : (0:ℚ) < 2 ^ (Int.log 2 x - 52) := by positivity
    have hdiv : x / 2 ^ (Int.log 2 x - 52) ≤ y / 2 ^ (Int.log 2 x - 52) := by gcongr
    have hpr : ((pyround (x / 2 ^ (Int.log 2 x - 52)) : Int) : ℚ) ≤
        ((pyround (y / 2 ^ (Int.log 2 x - 52)) : Int) : ℚ) := by
      exact_mod_cast pyround_mono _ _ hdiv
    exact mul_le_mul_of_nonneg_right hpr (le_of_lt hepos)
  · calc fl64 x ≤ 2 ^ (Int.log 2 x + 1) := fl64_le x hx
      _ ≤ 2 ^ (Int.log 2 y) := by
        apply zpow_le_zpow_right₀ (by norm_num : (1:ℚ) ≤ 2)
        omega
      _ ≤ fl64 y := le_fl64 y hy

theorem fl64_mono (x y : ℚ) (h : x ≤ y) : fl64 x ≤ fl64 y := by
  rcases lt_trichotomy x 0 with hx | hx | hx
  · rcases lt_trichotomy y 0 with hy | hy | hy
    · have hmono := fl64_mono_pos (-y) (-x) (by linarith) (by linarith)
      rw [fl64_neg, fl64_neg] at hmono
      linarith
    · subst hy
      rw [fl64_zero]
      have hpos : 0 < fl64 (-x) := fl64_pos _ (by linarith)
      rw [fl64_neg] at hpos
      linarith
    · have h1 : fl64 x < 0 := by
        have hpos : 0 < fl64 (-x) := fl64_pos _ (by linarith)
        rw [fl64_neg] at hpos
        linarith
      have h2 : 0 < fl64 y := fl64_pos _ hy
      linarith
  · subst hx
    rw [fl64_zero]
    rcases eq_or_lt_of_le h with heq | hlt
    · rw [← heq, fl64_zero]
    · exact le_of_lt (fl64_pos y hlt)
  · exact fl64_mono_pos x y hx h

theorem fl64_one : fl64 1 = 1 := by
  have h := fl64_eval 1 0 4503599627370496 (by norm_num) (by norm_num) (by norm_num)
    (by unfold pyround; norm_num)
  rw [h]
  norm_num

theorem fl64_hundred : fl64 100 = 100 := by
  have h := fl64_eval 100 6 7036874417766400 (by norm_num) (by norm_num) (by norm_num)
    (by unfold pyround; norm_num)
  rw [h]
  norm_num

theorem fl64_half : fl64 (1/2) = 1/2 := by
  have habs : |(1/2 : ℚ)| = 1/2 := abs_of_pos (by norm_num)
  have h := fl64_eval (1/2) (-1) 4503599627370496 (by norm_num)
    (by rw [habs]; norm_num) (by rw [habs]; norm_num) (by unfold pyround; norm_num)
  rw [h]
  norm_num

theorem fl64_fifty : fl64 50 = 50 := by
  have h := fl64_eval 50 5 7036874417766400 (by norm_num) (by norm_num) (by norm_num)
    (by unfold pyround; norm_num)
  rw [h]
  norm_num

/-- `fl64 (290/1000)`: the double nearest `0.29`. -/
theorem fl64_29_100 : fl64 (29/100) = 5224175567749775 / 18014398509481984 := by
  have habs : |(29/100 : ℚ)| = 29/100 := abs_of_pos (by norm_num)
  have h := fl64_eval (29/100) (-2) 5224175567749775 (by norm_num)
    (by rw [habs]; norm_num) (by rw [habs]; norm_num) (by unfold pyround; norm_num)
  rw [h]
  norm_num

/-- The second rounding of the light normalization at `light = 290`:
`fl64 (fl64 0.29 * 100)` is strictly below 29. -/
theorem fl64_29_step2 :
    fl64 ((5224175567749775 / 18014398509481984 : ℚ) * 100) =
      8162774324609023 / 281474976710656 := by
  have harg : (5224175567749775 / 18014398509481984 : ℚ) * 100 =
      130604389193744375 / 4503599627370496 := by norm_num
  rw [harg]
  have habs : |(130604389193744375 / 4503599627370496 : ℚ)| =
      130604389193744375 / 4503599627370496 := abs_of_pos (by norm_num)
  have h := fl64_eval (130604389193744375 / 4503599627370496) 4 8162774324609023
    (by norm_num) (by rw [habs]; norm_num) (by rw [habs]; norm_num)
    (by unfold pyround; norm_num)
  rw [h]
  norm_num

/-! ### Bounds and fixed points of the per-stat decay maps -/

theorem hdecay_nonneg (h : Int) : 0 ≤ hdecay h := clampI_nonneg _

theorem hdecay_le_hundred (h : Int) : hdecay h ≤ 100 := clampI_le_hundred _

theorem ndecay_nonneg (v : Int) : 0 ≤ ndecay v := clampI_nonneg _

theorem ndecay_le_hundred (v : Int) : ndecay v ≤ 100 := clampI_le_hundred _

theorem sdecay_nonneg (s : Int) : 0 ≤ sdecay s := clampI_nonneg _

theorem sdecay_le_hundred (s : Int) : sdecay s ≤ 100 := clampI_le_hundred _

/-- Sunlight values in `[0,10]` are fixed points of the sunlight decay:
`round(s * 0.95)` rounds back to `s` there (at `s = 10`, by round-half-to-even,
`round(9.5) = 10`). -/
theorem sdecay_fixed (s : Int) (h0 : 0 ≤ s) (h10 : s ≤ 10) : sdecay s = s := by
  interval_cases s <;> (unfold sdecay pyround clampI; norm_num)

/-- Above 10, sunlight decay strictly decreases. -/
theorem sdecay_lt_self (s : Int) (h : 11 ≤ s) : sdecay s ≤ s - 1 := by
  have hle : (pyround ((s : ℚ) * (19/20)) : ℚ) ≤ (s : ℚ) * (19/20) + 1/2 := pyround_le _
  have hs : (11 : ℚ) ≤ (s : ℚ) := by exact_mod_cast h
  have hlt : (pyround ((s : ℚ) * (19/20)) : ℚ) < (s : ℚ) := by linarith
  have hint : pyround ((s : ℚ) * (19/20)) < s := by exact_mod_cast hlt
  unfold sdecay clampI
  omega

/-- Sunlight decay never drops below 10 from a value at least 10. -/
theorem sdecay_ge_ten (s : Int) (h : 10 ≤ s) : 10 ≤ sdecay s := by
  rcases eq_or_lt_of_le h with h10 | h11
  · rw [← h10]
    unfold sdecay pyround clampI
    norm_num
  · have h11' : (11 : ℚ) ≤ (s : ℚ) := by exact_mod_cast h11
    have hge : (s : ℚ) * (19/20) - 1/2 ≤ (pyround ((s : ℚ) * (19/20)) : ℚ) := le_pyround _
    have hgt : (9 : ℚ) < (pyround ((s : ℚ) * (19/20)) : ℚ) := by linarith
    have hint : 9 < pyround ((s : ℚ) * (19/20)) := by exact_mod_cast hgt
    unfold sdecay clampI
    omega

/-- Iterated sunlight decay reaches the fixed-point band `[0,10]`. -/
theorem sdecay_iter_le_ten : ∀ (n : ℕ) (s : Int), 0 ≤ s → s ≤ 10 + n → sdecay^[n] s ≤ 10 := by
  intro n
  induction n with
  | zero => intro s h0 h10; simpa using h10
  | succ n ih =>
    intro s h0 hb
    rw [Function.iterate_succ_apply]
    rcases le_or_lt s 10 with h10 | h11
    · rw [sdecay_fixed s h0 h10]
      exact ih s h0 (by omega)
    · exact ih (sdecay s) (sdecay_nonneg s) (by have := sdecay_lt_self s (by omega); omega)

theorem hdecay_iter (n : ℕ) (h : Int) (h0 : 0 ≤ h) (h100 : h ≤ 100) :
    hdecay^[n] h = max 0 (h - 5 * n) := by
  induction n generalizing h with
  | zero => simp; omega
  | succ n ih =>
    rw [Function.iterate_succ_apply]
    have step : hdecay h = max 0 (h - 5) := by unfold hdecay clampI; omega
    rw [step, ih (max 0 (h - 5)) (by omega) (by omega)]
    push_cast
    omega

theorem ndecay_iter (n : ℕ) (v : Int) (h0 : 0 ≤ v) (h100 : v ≤ 100) :
    ndecay^[n] v = max 0 (v - 2 * n) := by
  induction n generalizing v with
  | zero => simp; omega
  | succ n ih =>
    rw [Function.iterate_succ_apply]
    have step : ndecay v = max 0 (v - 2) := by unfold ndecay clampI; omega
    rw [step, ih (max 0 (v - 2)) (by omega) (by omega)]
    push_cast
    omega

/-! ### Structural facts about `apply_decay` and `apply_growth` -/

theorem apply_decay_iterate (p : Plant) : ∀ n : ℕ,
    apply_decay^[n] (apply_decay p) =
      { p with
        hydration := some (hdecay^[n] (hdecay (p.hydration.getD 0)))
        nutrition := some (ndecay^[n] (ndecay (p.nutrition.getD 0)))
        sunlight := some (sdecay^[n] (sdecay (p.sunlight.getD 0))) } := by
  intro n
  induction n with
  | zero => rfl
  | succ n ih =>
    rw [Function.iterate_succ_apply', ih]
    simp [apply_decay, Function.iterate_succ_apply']

theorem apply_growth_hydration (p : Plant) (t : Template) :
    (apply_growth p t).hydration = p.hydration := by
  unfold apply_growth
  split <;> rfl

theorem apply_growth_nutrition (p : Plant) (t : Template) :
    (apply_growth p t).nutrition = p.nutrition := by
  unfold apply_growth
  split <;> rfl

theorem apply_growth_sunlight (p : Plant) (t : Template) :
    (apply_growth p t).sunlight = p.sunlight := by
  unfold apply_growth
  split <;> rfl

theorem apply_growth_health_score (p : Plant) (t : Template) :
    (apply_growth p t).health_score = p.health_score := by
  unfold apply_growth
  split <;> rfl

theorem apply_growth_action_log (p : Plant) (t : Template) :
    (apply_growth p t).action_log = p.action_log := by
  unfold apply_growth
  split <;> rfl

theorem apply_growth_growth_points (p : Plant) (t : Template) :
    (apply_growth p t).growth_points =
      if 70 < p.health_score.getD 0 then some (p.growth_points.getD 0 + 10)
      else p.growth_points := by
  unfold apply_growth
  split <;> simp_all

theorem apply_growth_stage (p : Plant) (t : Template) :
    (apply_growth p t).stage = some (stageOf ((apply_growth p t).growth_points.getD 0)) := by
  unfold apply_growth stageOf
  split <;> rfl

theorem stageRank_stageOf (g : Int) :
    stageRank (stageOf g) =
      if 500 ≤ g then 3 else if 250 ≤ g then 2 else if 100 ≤ g then 1 else 0 := by
  have hm : STAGE_THRESHOLDS "mature" = 500 := rfl
  have hj : STAGE_THRESHOLDS "juvenile" = 250 := rfl
  have hsp : STAGE_THRESHOLDS "sprout" = 100 := rfl
  unfold stageOf
  rw [hm, hj, hsp]
  split_ifs <;> simp [stageRank]

theorem stageOf_mono (g1 g2 : Int) (h : g1 ≤ g2) :
    stageRank (stageOf g1) ≤ stageRank (stageOf g2) := by
  rw [stageRank_stageOf, stageRank_stageOf]
  split_ifs <;> omega

/-! ### The clamp invariant -/

theorem compute_health_nonneg (p : Plant) (t : Template) : 0 ≤ compute_health p t := by
  unfold compute_health
  exact pytrunc_clampQ_nonneg _

theorem compute_health_le_hundred (p : Plant) (t : Template) : compute_health p t ≤ 100 := by
  unfold compute_health
  exact pytrunc_clampQ_le_hundred _

/-- After recomputing health from the current stats and applying growth, a
plant whose three stats are in range is entirely in range. -/
theorem StatsInRange_post (p : Plant) (t : Template)
    (h1 : 0 ≤ p.hydration.getD 0) (h2 : p.hydration.getD 0 ≤ 100)
    (h3 : 0 ≤ p.nutrition.getD 0) (h4 : p.nutrition.getD 0 ≤ 100)
    (h5 : 0 ≤ p.sunlight.getD 0) (h6 : p.sunlight.getD 0 ≤ 100) :
    StatsInRange (apply_growth { p with health_score := some (compute_health p t) } t) := by
  unfold StatsInRange
  rw [apply_growth_hydration, apply_growth_nutrition, apply_growth_sunlight,
    apply_growth_health_score]
  exact ⟨h1, h2, h3, h4, h5, h6, compute_health_nonneg _ _, compute_health_le_hundred _ _⟩

theorem StatsInRange_care_endpoint (p : Plant) (t : Template) (ty : String)
    (h : StatsInRange p) : StatsInRange (care_endpoint p t ty).1 := by
  obtain ⟨h1, h2, h3, h4, h5, h6, h7, h8⟩ := h
  by_cases hw : ty = "water"
  · subst hw
    exact StatsInRange_post _ t (clampI_nonneg _) (clampI_le_hundred _) (ndecay_nonneg _)
      (ndecay_le_hundred _) (sdecay_nonneg _) (sdecay_le_hundred _)
  by_cases hf : ty = "fertilize"
  · subst hf
    exact StatsInRange_post _ t (hdecay_nonneg _) (hdecay_le_hundred _) (clampI_nonneg _)
      (clampI_le_hundred _) (sdecay_nonneg _) (sdecay_le_hundred _)
  by_cases hs : ty = "sunlight_add"
  · subst hs
    exact StatsInRange_post _ t (hdecay_nonneg _) (hdecay_le_hundred _) (ndecay_nonneg _)
      (ndecay_le_hundred _) (clampI_nonneg _) (clampI_le_hundred _)
  by_cases htr : ty = "trim"
  · subst htr
    exact StatsInRange_post _ t (hdecay_nonneg _) (hdecay_le_hundred _) (ndecay_nonneg _)
      (ndecay_le_hundred _) (sdecay_nonneg _) (sdecay_le_hundred _)
  by_cases hr : ty = "repot"
  · subst hr
    exact StatsInRange_post _ t (hdecay_nonneg _) (hdecay_le_hundred _) (ndecay_nonneg _)
      (ndecay_le_hundred _) (sdecay_nonneg _) (sdecay_le_hundred _)
  · simp only [care_endpoint, care_action, if_neg hw, if_neg hf, if_neg hs, if_neg htr, if_neg hr]
    exact ⟨h1, h2, h3, h4, h5, h6, h7, h8⟩

theorem StatsInRange_ingest_sensor (p : Plant) (t : Template) (d : SensorIn)
    (h : StatsInRange p) : StatsInRange (ingest_sensor p t d) := by
  obtain ⟨h1, h2, h3, h4, h5, h6, -, -⟩ := h
  unfold ingest_sensor
  rcases hm : d.moisture with - | m <;> rcases hl : d.light with - | l <;> simp only
  · exact StatsInRange_post p t h1 h2 h3 h4 h5 h6
  · exact StatsInRange_post _ t h1 h2 h3 h4 (pytrunc_clampQ_nonneg _) (pytrunc_clampQ_le_hundred _)
  · exact StatsInRange_post _ t (pytrunc_clampQ_nonneg _) (pytrunc_clampQ_le_hundred _) h3 h4 h5 h6
  · exact StatsInRange_post _ t (pytrunc_clampQ_nonneg _) (pytrunc_clampQ_le_hundred _) h3 h4
      (pytrunc_clampQ_nonneg _) (pytrunc_clampQ_le_hundred _)

theorem StatsInRange_growth_tick (p : Plant) (t : Template) :
    StatsInRange (growth_tick p t) := by
  show StatsInRange
    (apply_growth { apply_decay p with health_score := some (compute_health (apply_decay p) t) } t)
  exact StatsInRange_post (apply_decay p) t (hdecay_nonneg _) (hdecay_le_hundred _)
    (ndecay_nonneg _) (ndecay_le_hundred _) (sdecay_nonneg _) (sdecay_le_hundred _)

theorem StatsInRange_runOp (p : Plant) (op : EngineOp) (h : StatsInRange p) :
    StatsInRange (runOp p op) := by
  cases op with
  | care t ty => exact StatsInRange_care_endpoint p t ty h
  | sensor t d => exact StatsInRange_ingest_sensor p t d h
  | tick t => exact StatsInRange_growth_tick p t

theorem StatsInRange_runOps (p : Plant) (ops : List EngineOp) (h : StatsInRange p) :
    StatsInRange (runOps p ops) := by
  induction ops generalizing p with
  | nil => exact h
  | cons op ops ih => exact ih (runOp p op) (StatsInRange_runOp p op h)

/-! ### Monotonicity of growth points -/

theorem growth_points_le_apply_growth (p : Plant) (t : Template) :
    p.growth_points.getD 0 ≤ (apply_growth p t).growth_points.getD 0 := by
  rw [apply_growth_growth_points]
  split
  · simp
  · exact le_refl _

theorem growth_points_le_runOp (p : Plant) (op : EngineOp) :
    p.growth_points.getD 0 ≤ (runOp p op).growth_points.getD 0 := by
  cases op with
  | care t ty =>
    by_cases hw : ty = "water"
    · subst hw; exact growth_points_le_apply_growth _ t
    by_cases hf : ty = "fertilize"
    · subst hf; exact growth_points_le_apply_growth _ t
    by_cases hs : ty = "sunlight_add"
    · subst hs; exact growth_points_le_apply_growth _ t
    by_cases htr : ty = "trim"
    · subst htr; exact growth_points_le_apply_growth _ t
    by_cases hr : ty = "repot"
    · subst hr; exact growth_points_le_apply_growth _ t
    · simp only [runOp, care_endpoint, care_action, if_neg hw, if_neg hf, if_neg hs, if_neg htr,
        if_neg hr]
      exact le_refl _
  | sensor t d =>
    show p.growth_points.getD 0 ≤ (ingest_sensor p t d).growth_points.getD 0
    unfold ingest_sensor
    rcases hm : d.moisture with - | m <;> rcases hl : d.light with - | l <;> simp only <;>
      exact growth_points_le_apply_growth _ t
  | tick t => exact growth_points_le_apply_growth _ t

theorem growth_points_le_runOps (p : Plant) (ops : List EngineOp) :
    p.growth_points.getD 0 ≤ (runOps p ops).growth_points.getD 0 := by
  induction ops generalizing p with
  | nil => exact le_refl _
  | cons op ops ih => exact le_trans (growth_points_le_runOp p op) (ih (runOp p op))

/-! ### The claims -/

/-- C1: for every plant whose stats are in range and every finite sequence of
engine operations (care actions with a recognized type, sensor ingests,
growth ticks), the resulting plant satisfies `0 ≤ hydration ≤ 100`,
`0 ≤ nutrition ≤ 100`, `0 ≤ sunlight ≤ 100` and `0 ≤ health_score ≤ 100`. -/
theorem stats_in_range_after_engine_ops (p : Plant) (ops : List EngineOp)
    (h : StatsInRange p) (_hrec : ∀ op ∈ ops, opRecognized op) :
    StatsInRange (runOps p ops) :=
  StatsInRange_runOps p ops h

theorem stats_in_range_after_engine_ops_witness :
    StatsInRange (runOps new_plant
      [EngineOp.care roseTemplate "water", EngineOp.sensor roseTemplate lightReading,
        EngineOp.tick roseTemplate]) :=
  stats_in_range_after_engine_ops new_plant _ (by decide) (by decide)

/-- The plant produced by a successful `trim` or `repot` action: the direct
health bump is overwritten by the recompute, so only the decayed stats
matter. -/
theorem care_action_trim_eq (p : Plant) (t : Template) :
    care_action p t "trim" = Except.ok
      ({ apply_growth { apply_decay p with
            health_score := some (compute_health (apply_decay p) t) } t with
          action_log := ⟨"trim", 1, 6⟩ ::
            (apply_growth { apply_decay p with
              health_score := some (compute_health (apply_decay p) t) } t).action_log }, 6) := rfl

theorem care_action_repot_eq (p : Plant) (t : Template) :
    care_action p t "repot" = Except.ok
      ({ apply_growth { apply_decay p with
            health_score := some (compute_health (apply_decay p) t) } t with
          action_log := ⟨"repot", 1, 10⟩ ::
            (apply_growth { apply_decay p with
              health_score := some (compute_health (apply_decay p) t) } t).action_log }, 10) := rfl

/-- C2: for every plant and template, `trim` and `repot` both succeed, and the
direct health bump (+5 / +10) has no lasting numeric effect: the final
health_score is `compute_health` of the post-decay stats, and the two results
agree on hydration, nutrition, sunlight, health_score, growth_points and
stage; they differ only in the xp awarded (6 vs 10) and the logged action
type. -/
theorem trim_repot_bump_transient (p : Plant) (t : Template) :
    ∃ q r : Plant,
      care_action p t "trim" = Except.ok (q, 6) ∧
      care_action p t "repot" = Except.ok (r, 10) ∧
      q.hydration = r.hydration ∧ q.nutrition = r.nutrition ∧ q.sunlight = r.sunlight ∧
      q.health_score = r.health_score ∧ q.growth_points = r.growth_points ∧
      q.stage = r.stage ∧
      q.health_score = some (compute_health (apply_decay p) t) ∧
      q.action_log = ⟨"trim", 1, 6⟩ :: p.action_log ∧
      r.action_log = ⟨"repot", 1, 10⟩ :: p.action_log := by
  refine ⟨_, _, care_action_trim_eq p t, care_action_repot_eq p t,
    rfl, rfl, rfl, rfl, rfl, rfl, ?_, ?_, ?_⟩
  · show (apply_growth _ t).health_score = _
    rw [apply_growth_health_score]
  · show ⟨"trim", 1, 6⟩ :: (apply_growth _ t).action_log = _
    rw [apply_growth_action_log]
    rfl
  · show ⟨"repot", 1, 10⟩ :: (apply_growth _ t).action_log = _
    rw [apply_growth_action_log]
    rfl

/-- C3: a care action whose type is not one of water, fertilize, sunlight_add,
trim, repot fails with the invalid-action error, awards no xp, and the stored
plant (including its action_log) is unchanged. -/
theorem unrecognized_action_rejected (p : Plant) (t : Template) (ty : String)
    (h : ty ∉ recognizedTypes) :
    care_action p t ty = Except.error CareError.invalidAction ∧
    care_endpoint p t ty = (p, 0) := by
  simp only [recognizedTypes, List.mem_cons, List.not_mem_nil, or_false, not_or] at h
  obtain ⟨hw, hf, hs, htr, hr⟩ := h
  constructor
  · simp [care_action, hw, hf, hs, htr, hr]
  · simp [care_endpoint, care_action, hw, hf, hs, htr, hr]

theorem unrecognized_action_rejected_witness :
    care_action new_plant roseTemplate "prune" = Except.error CareError.invalidAction ∧
    care_endpoint new_plant roseTemplate "prune" = (new_plant, 0) :=
  unrecognized_action_rejected new_plant roseTemplate "prune" (by decide)

/-- C4: on a plant with hydration=50, nutrition=50, sunlight=50 and a template
with ideal_moisture=60, ideal_light=70, one `water` action first decays the
stats to 45 / 48 / round(50·0.95)=48, then adds 20 hydration giving 65, and
ends with `health_score = 100 - avg(|65-60|, |48-70|, |48-60|) = 87` and an
xp award of 5. -/
theorem water_scenario (p : Plant) (t : Template)
    (hh : p.hydration = some 50) (hn : p.nutrition = some 50) (hs : p.sunlight = some 50)
    (him : t.ideal_moisture = some 60) (hil : t.ideal_light = some 70) :
    (apply_decay p).hydration = some 45 ∧
    (apply_decay p).nutrition = some 48 ∧
    (apply_decay p).sunlight = some 48 ∧
    (care_endpoint p t "water").1.hydration = some 65 ∧
    (care_endpoint p t "water").1.health_score = some 87 ∧
    (care_endpoint p t "water").2 = 5 := by
  obtain ⟨ph, pn, ps, phs, pgp, pst, plog⟩ := p
  obtain ⟨tm, tl⟩ := t
  simp only at hh hn hs him hil
  subst hh hn hs him hil
  refine ⟨?_, ?_, ?_, ?_, ?_, rfl⟩
  · show some (hdecay 50) = some 45
    unfold hdecay clampI
    norm_num
  · show some (ndecay 50) = some 48
    unfold ndecay clampI
    norm_num
  · show some (sdecay 50) = some 48
    unfold sdecay pyround clampI
    norm_num
  · simp only [care_endpoint, care_action, apply_growth_hydration]
    norm_num [apply_decay, hdecay, clampI]
  · simp only [care_endpoint, care_action, apply_growth_health_score]
    norm_num [apply_decay, compute_health, pytrunc, clampQ, hdecay, ndecay, sdecay, pyround,
      clampI]

theorem water_scenario_witness :
    (apply_decay new_plant).hydration = some 45 ∧
    (apply_decay new_plant).nutrition = some 48 ∧
    (apply_decay new_plant).sunlight = some 48 ∧
    (care_endpoint new_plant roseTemplate "water").1.hydration = some 65 ∧
    (care_endpoint new_plant roseTemplate "water").1.health_score = some 87 ∧
    (care_endpoint new_plant roseTemplate "water").2 = 5 :=
  water_scenario new_plant roseTemplate rfl rfl rfl rfl rfl

/-- C5 counterexample: the claim that repeated decay drives hydration,
nutrition AND sunlight to floor 0 fails on the freshly created plant
(stats 50/50/50, in range): `round(s * 0.95)` fixes every sunlight value in
`[0,10]` (at 10, `round(9.5) = 10` by round-half-to-even), so sunlight never
reaches 0 from 50, for any number of decay applications. -/
theorem decay_floor_zero_counterexample :
    ¬ ∃ n : ℕ,
      ((apply_decay^[n] new_plant).hydration = some 0 ∧
        (apply_decay^[n] new_plant).nutrition = some 0 ∧
        (apply_decay^[n] new_plant).sunlight = some 0 ∧
        ∀ k : ℕ,
          ((apply_decay^[k] (apply_decay^[n] new_plant)).hydration = some 0 ∧
            (apply_decay^[k] (apply_decay^[n] new_plant)).nutrition = some 0 ∧
            (apply_decay^[k] (apply_decay^[n] new_plant)).sunlight = some 0)) := by
  have key : ∀ n : ℕ, ∃ s, (apply_decay^[n] new_plant).sunlight = some s ∧ 10 ≤ s := by
    intro n
    induction n with
    | zero => exact ⟨50, rfl, by norm_num⟩
    | succ n ih =>
      obtain ⟨s, hs, h10⟩ := ih
      refine ⟨sdecay s, ?_, sdecay_ge_ten s h10⟩
      rw [Function.iterate_succ_apply']
      show some (sdecay ((apply_decay^[n] new_plant).sunlight.getD 0)) = _
      rw [hs]
      rfl
  rintro ⟨n, -, -, hzero, -⟩
  obtain ⟨s, hs, h10⟩ := key n
  rw [hzero] at hs
  simp only [Option.some.injEq] at hs
  omega

/-- C5 (amended): repeated decay stabilizes, but not every stat at floor 0:
for every plant with in-range stats there is an `n` (110 suffices) after
which hydration and nutrition have reached 0, sunlight has reached a
fixed point of the sunlight decay lying in `[0,10]`, and every further decay
application leaves the plant unchanged. -/
theorem decay_stabilizes_amended (p : Plant) (h : StatsInRange p) :
    ∃ n : ℕ,
      (apply_decay^[n] p).hydration = some 0 ∧
      (apply_decay^[n] p).nutrition = some 0 ∧
      (∃ s, (apply_decay^[n] p).sunlight = some s ∧ 0 ≤ s ∧ s ≤ 10) ∧
      ∀ k : ℕ, apply_decay^[k] (apply_decay^[n] p) = apply_decay^[n] p := by
  obtain ⟨h1, h2, h3, h4, h5, h6, -, -⟩ := h
  refine ⟨110, ?_⟩
  have hiter : apply_decay^[110] p =
      { p with
        hydration := some (hdecay^[109] (hdecay (p.hydration.getD 0)))
        nutrition := some (ndecay^[109] (ndecay (p.nutrition.getD 0)))
        sunlight := some (sdecay^[109] (sdecay (p.sunlight.getD 0))) } := by
    have h110 : (110 : ℕ) = 109 + 1 := rfl
    rw [h110, Function.iterate_succ_apply]
    exact apply_decay_iterate p 109
  have hh0 : hdecay^[109] (hdecay (p.hydration.getD 0)) = 0 := by
    have step : hdecay (p.hydration.getD 0) = max 0 (p.hydration.getD 0 - 5) := by
      unfold hdecay clampI
      omega
    rw [step, hdecay_iter 109 _ (by omega) (by omega)]
    push_cast
    omega
  have hn0 : ndecay^[109] (ndecay (p.nutrition.getD 0)) = 0 := by
    have step : ndecay (p.nutrition.getD 0) = max 0 (p.nutrition.getD 0 - 2) := by
      unfold ndecay clampI
      omega
    rw [step, ndecay_iter 109 _ (by omega) (by omega)]
    push_cast
    omega
  have hsb : sdecay^[109] (sdecay (p.sunlight.getD 0)) ≤ 10 :=
    sdecay_iter_le_ten 109 _ (sdecay_nonneg _)
      (by have := sdecay_le_hundred (p.sunlight.getD 0); omega)
  have hsn : 0 ≤ sdecay^[109] (sdecay (p.sunlight.getD 0)) := by
    have h109 : (109 : ℕ) = 108 + 1 := rfl
    rw [h109, Function.iterate_succ_apply']
    exact sdecay_nonneg _
  have hfinal : apply_decay^[110] p =
      { p with
        hydration := some 0
        nutrition := some 0
        sunlight := some (sdecay^[109] (sdecay (p.sunlight.getD 0))) } := by
    rw [hiter, hh0, hn0]
  have e0 : hdecay 0 = 0 := by unfold hdecay clampI; omega
  have e1 : ndecay 0 = 0 := by unfold ndecay clampI; omega
  have e2 : sdecay (sdecay^[109] (sdecay (p.sunlight.getD 0))) =
      sdecay^[109] (sdecay (p.sunlight.getD 0)) := sdecay_fixed _ hsn hsb
  refine ⟨by rw [hfinal], by rw [hfinal], ⟨_, by rw [hfinal], hsn, hsb⟩, ?_⟩
  intro k
  apply Function.iterate_fixed
  rw [hfinal]
  show ({ p with
      hydration := some (hdecay 0)
      nutrition := some (ndecay 0)
      sunlight := some (sdecay (sdecay^[109] (sdecay (p.sunlight.getD 0)))) } : Plant) = _
  rw [e0, e1, e2]

theorem decay_stabilizes_amended_witness :
    ∃ n : ℕ,
      (apply_decay^[n] new_plant).hydration = some 0 ∧
      (apply_decay^[n] new_plant).nutrition = some 0 ∧
      (∃ s, (apply_decay^[n] new_plant).sunlight = some s ∧ 0 ≤ s ∧ s ≤ 10) ∧
      ∀ k : ℕ, apply_decay^[k] (apply_decay^[n] new_plant) = apply_decay^[n] new_plant :=
  decay_stabilizes_amended new_plant (by decide)

theorem ingest_sensor_hydration (p : Plant) (t : Template) (d : SensorIn) :
    (ingest_sensor p t d).hydration =
      match d.moisture with
      | some m => some (pytrunc (clampQ m))
      | none => p.hydration := by
  obtain ⟨dm, dt, dl, dh⟩ := d
  rcases dm with - | m <;> rcases dl with - | l <;>
    simp [ingest_sensor, apply_growth_hydration]

theorem ingest_sensor_sunlight (p : Plant) (t : Template) (d : SensorIn) :
    (ingest_sensor p t d).sunlight =
      match d.light with
      | some l => some (pytrunc (clampQ (fl64 (fl64 (l / 1000) * 100))))
      | none => p.sunlight := by
  obtain ⟨dm, dt, dl, dh⟩ := d
  rcases dm with - | m <;> rcases dl with - | l <;>
    simp [ingest_sensor, apply_growth_sunlight]

theorem ingest_sensor_nutrition (p : Plant) (t : Template) (d : SensorIn) :
    (ingest_sensor p t d).nutrition = p.nutrition := by
  obtain ⟨dm, dt, dl, dh⟩ := d
  rcases dm with - | m <;> rcases dl with - | l <;>
    simp [ingest_sensor, apply_growth_nutrition]

/-- C6 counterexample: the exact normalization formula
`clamp((light/1000)*100)` is false of the program: at `light = 290` the two
binary64 roundings of `(290/1000.0) * 100` produce `28.999999999999996…`,
so the code stores 28 where the exact formula demands 29. -/
theorem sensor_light_formula_counterexample :
    (ingest_sensor new_plant roseTemplate lightReading290).sunlight = some 28 ∧
    pytrunc (clampQ ((290 : ℚ) / 1000 * 100)) = 29 ∧
    (ingest_sensor new_plant roseTemplate lightReading290).sunlight ≠
      some (pytrunc (clampQ ((290 : ℚ) / 1000 * 100))) := by
  have hstore : (ingest_sensor new_plant roseTemplate lightReading290).sunlight = some 28 := by
    rw [ingest_sensor_sunlight]
    show some (pytrunc (clampQ (fl64 (fl64 ((290 : ℚ) / 1000) * 100)))) = some 28
    have h1 : (290 : ℚ) / 1000 = 29/100 := by norm_num
    rw [h1, fl64_29_100, fl64_29_step2]
    have hcl : clampQ (8162774324609023 / 281474976710656 : ℚ) =
        8162774324609023 / 281474976710656 := by
      unfold clampQ
      rw [min_eq_right (by norm_num), max_eq_right (by norm_num)]
    rw [hcl]
    unfold pytrunc
    norm_num
  have hexact : pytrunc (clampQ ((290 : ℚ) / 1000 * 100)) = 29 := by
    have h1 : (290 : ℚ) / 1000 * 100 = 29 := by norm_num
    rw [h1]
    have hcl : clampQ (29 : ℚ) = 29 := by
      unfold clampQ
      rw [min_eq_right (by norm_num), max_eq_right (by norm_num)]
    rw [hcl]
    unfold pytrunc
    norm_num
  refine ⟨hstore, hexact, ?_⟩
  rw [hstore, hexact]
  simp

/-- C6 (amended): `ingestSensorReading` never applies decay: a present
`moisture` directly overwrites hydration with the clamped value; a present
`light` directly overwrites sunlight with the binary64 evaluation of
`clamp((light/1000)*100)` — `(light/1000.0)*100` rounded to double after
each operation, which can fall one unit below the exact formula — landing in
the integer-valued stat through Python's `int` truncation; `light = 500`
still yields exactly 50 and light values outside the 0–1000 scale still
saturate at 0 or 100; absent fields leave the stats untouched, and
temperature and humidity never change any plant stat. -/
theorem sensor_ingest_overwrites (p : Plant) (t : Template) (d : SensorIn) :
    (∀ m, d.moisture = some m →
      (ingest_sensor p t d).hydration = some (pytrunc (clampQ m))) ∧
    (d.moisture = none → (ingest_sensor p t d).hydration = p.hydration) ∧
    (∀ l, d.light = some l →
      (ingest_sensor p t d).sunlight =
        some (pytrunc (clampQ (fl64 (fl64 (l / 1000) * 100))))) ∧
    (d.light = none → (ingest_sensor p t d).sunlight = p.sunlight) ∧
    (ingest_sensor p t d).nutrition = p.nutrition ∧
    (d.light = some 500 → (ingest_sensor p t d).sunlight = some 50) ∧
    (∀ l, d.light = some l → 1000 ≤ l → (ingest_sensor p t d).sunlight = some 100) ∧
    (∀ l, d.light = some l → l ≤ 0 → (ingest_sensor p t d).sunlight = some 0) ∧
    (∀ d' : SensorIn, d'.moisture = d.moisture → d'.light = d.light →
      ((ingest_sensor p t d').hydration = (ingest_sensor p t d).hydration ∧
        (ingest_sensor p t d').nutrition = (ingest_sensor p t d).nutrition ∧
        (ingest_sensor p t d').sunlight = (ingest_sensor p t d).sunlight)) := by
  refine ⟨?_, ?_, ?_, ?_, ingest_sensor_nutrition p t d, ?_, ?_, ?_, ?_⟩
  · intro m hm
    rw [ingest_sensor_hydration, hm]
  · intro hm
    rw [ingest_sensor_hydration, hm]
  · intro l hl
    rw [ingest_sensor_sunlight, hl]
  · intro hl
    rw [ingest_sensor_sunlight, hl]
  · intro hl
    rw [ingest_sensor_sunlight, hl]
    show some (pytrunc (clampQ (fl64 (fl64 ((500 : ℚ) / 1000) * 100)))) = some 50
    have h1 : (500 : ℚ) / 1000 = 1/2 := by norm_num
    rw [h1, fl64_half]
    have h2 : (1/2 : ℚ) * 100 = 50 := by norm_num
    rw [h2, fl64_fifty]
    have hcl : clampQ (50 : ℚ) = 50 := by
      unfold clampQ
      rw [min_eq_right (by norm_num), max_eq_right (by norm_num)]
    rw [hcl]
    unfold pytrunc
    norm_num
  · intro l hl h1000
    rw [ingest_sensor_sunlight, hl]
    show some (pytrunc (clampQ (fl64 (fl64 (l / 1000) * 100)))) = some 100
    have hs1 : (1 : ℚ) ≤ l / 1000 := by
      rw [le_div_iff₀ (by norm_num : (0:ℚ) < 1000)]
      linarith
    have hs2 : (1 : ℚ) ≤ fl64 (l / 1000) := by
      have h := fl64_mono 1 (l / 1000) hs1
      rw [fl64_one] at h
      exact h
    have hs3 : (100 : ℚ) ≤ fl64 (l / 1000) * 100 := by linarith
    have hs4 : (100 : ℚ) ≤ fl64 (fl64 (l / 1000) * 100) := by
      have h := fl64_mono 100 _ hs3
      rw [fl64_hundred] at h
      exact h
    have hcl : clampQ (fl64 (fl64 (l / 1000) * 100)) = 100 := by
      unfold clampQ
      rw [min_eq_left hs4]
      norm_num
    rw [hcl]
    unfold pytrunc
    norm_num
  · intro l hl h0
    rw [ingest_sensor_sunlight, hl]
    show some (pytrunc (clampQ (fl64 (fl64 (l / 1000) * 100)))) = some 0
    have hs1 : l / 1000 ≤ (0 : ℚ) := by
      rw [div_le_iff₀ (by norm_num : (0:ℚ) < 1000)]
      linarith
    have hs2 : fl64 (l / 1000) ≤ 0 := by
      have h := fl64_mono (l / 1000) 0 hs1
      rw [fl64_zero] at h
      exact h
    have hs3 : fl64 (l / 1000) * 100 ≤ 0 := by linarith
    have hs4 : fl64 (fl64 (l / 1000) * 100) ≤ 0 := by
      have h := fl64_mono (fl64 (l / 1000) * 100) 0 hs3
      rw [fl64_zero] at h
      exact h
    have hcl : clampQ (fl64 (fl64 (l / 1000) * 100)) = 0 := by
      unfold clampQ
      rw [min_eq_right (le_trans hs4 (by norm_num)), max_eq_left hs4]
    rw [hcl]
    unfold pytrunc
    norm_num
  · intro d' hm' hl'
    refine ⟨?_, ?_, ?_⟩
    · rw [ingest_sensor_hydration, ingest_sensor_hydration, hm']
    · rw [ingest_sensor_nutrition, ingest_sensor_nutrition]
    · rw [ingest_sensor_sunlight, ingest_sensor_sunlight, hl']

theorem sensor_ingest_overwrites_witness :
    (ingest_sensor new_plant roseTemplate lightReading).sunlight = some 50 ∧
    (ingest_sensor new_plant roseTemplate lightReading).hydration = new_plant.hydration :=
  ⟨(sensor_ingest_overwrites new_plant roseTemplate lightReading).2.2.2.2.2.1 rfl,
    (sensor_ingest_overwrites new_plant roseTemplate lightReading).2.1 rfl⟩

/-- C7: `apply_growth` adds exactly 10 growth points when `health_score > 70`
and leaves them unchanged otherwise; the stage is then derived from the
resulting growth points alone by the descending thresholds mature (≥500) >
juvenile (≥250) > sprout (≥100) > seed; in particular a plant at 95 growth
points with health 75 reaches 105 points and moves from seed to sprout. -/
theorem growth_increment_and_stage (p : Plant) (t : Template) :
    ((apply_growth p t).growth_points =
      if 70 < p.health_score.getD 0 then some (p.growth_points.getD 0 + 10)
      else p.growth_points) ∧
    ((apply_growth p t).stage = some (stageOf ((apply_growth p t).growth_points.getD 0))) ∧
    (∀ g : Int,
      (stageOf g = "mature" ↔ 500 ≤ g) ∧
      (stageOf g = "juvenile" ↔ 250 ≤ g ∧ g < 500) ∧
      (stageOf g = "sprout" ↔ 100 ≤ g ∧ g < 250) ∧
      (stageOf g = "seed" ↔ g < 100)) ∧
    (p.growth_points = some 95 → p.health_score = some 75 → p.stage = some "seed" →
      (apply_growth p t).growth_points = some 105 ∧
      (apply_growth p t).stage = some "sprout") := by
  refine ⟨apply_growth_growth_points p t, apply_growth_stage p t, ?_, ?_⟩
  · intro g
    have hm : STAGE_THRESHOLDS "mature" = 500 := rfl
    have hj : STAGE_THRESHOLDS "juvenile" = 250 := rfl
    have hsp : STAGE_THRESHOLDS "sprout" = 100 := rfl
    unfold stageOf
    rw [hm, hj, hsp]
    split_ifs <;> refine ⟨?_, ?_, ?_, ?_⟩ <;> simp <;> omega
  · intro h95 h75 hseed
    have hgp : (apply_growth p t).growth_points = some 105 := by
      rw [apply_growth_growth_points, h95, h75]
      norm_num
    refine ⟨hgp, ?_⟩
    rw [apply_growth_stage, hgp]
    show some (stageOf 105) = some "sprout"
    unfold stageOf
    rw [show STAGE_THRESHOLDS "mature" = 500 from rfl,
      show STAGE_THRESHOLDS "juvenile" = 250 from rfl,
      show STAGE_THRESHOLDS "sprout" = 100 from rfl]
    norm_num

theorem growth_increment_and_stage_witness :
    (apply_growth seedPlant95 roseTemplate).growth_points = some 105 ∧
    (apply_growth seedPlant95 roseTemplate).stage = some "sprout" :=
  (growth_increment_and_stage seedPlant95 roseTemplate).2.2.2 rfl rfl rfl

/-- C8: growth_points never decreases — under a single engine invocation and
hence across any sequence of them — and the stage every engine-stored result
carries is the pure function `stageOf` of that result's current
growth_points (re-derivable without history); since `stageOf` is monotone in
the rank order seed < sprout < juvenile < mature, the stored stage is
non-decreasing over the plant's lifetime. -/
theorem growth_points_monotone_stage_pure :
    (∀ (p : Plant) (op : EngineOp),
      p.growth_points.getD 0 ≤ (runOp p op).growth_points.getD 0) ∧
    (∀ (p : Plant) (ops : List EngineOp),
      p.growth_points.getD 0 ≤ (runOps p ops).growth_points.getD 0) ∧
    (∀ (p : Plant) (t : Template) (ty : String) (q : Plant) (xp : Int),
      care_action p t ty = Except.ok (q, xp) →
      q.stage = some (stageOf (q.growth_points.getD 0))) ∧
    (∀ (p : Plant) (t : Template) (d : SensorIn),
      (ingest_sensor p t d).stage =
        some (stageOf ((ingest_sensor p t d).growth_points.getD 0))) ∧
    (∀ (p : Plant) (t : Template),
      (growth_tick p t).stage = some (stageOf ((growth_tick p t).growth_points.getD 0))) ∧
    (∀ g1 g2 : Int, g1 ≤ g2 → stageRank (stageOf g1) ≤ stageRank (stageOf g2)) := by
  refine ⟨growth_points_le_runOp, growth_points_le_runOps, ?_, ?_, ?_, stageOf_mono⟩
  · intro p t ty q xp h
    by_cases hw : ty = "water"
    · subst hw
      simp only [care_action, Except.ok.injEq, Prod.mk.injEq] at h
      obtain ⟨rfl, rfl⟩ := h
      exact apply_growth_stage _ t
    by_cases hf : ty = "fertilize"
    · subst hf
      simp only [care_action, Except.ok.injEq, Prod.mk.injEq] at h
      obtain ⟨rfl, rfl⟩ := h
      exact apply_growth_stage _ t
    by_cases hsun : ty = "sunlight_add"
    · subst hsun
      simp only [care_action, Except.ok.injEq, Prod.mk.injEq] at h
      obtain ⟨rfl, rfl⟩ := h
      exact apply_growth_stage _ t
    by_cases htr : ty = "trim"
    · subst htr
      simp only [care_action, Except.ok.injEq, Prod.mk.injEq] at h
      obtain ⟨rfl, rfl⟩ := h
      exact apply_growth_stage _ t
    by_cases hr : ty = "repot"
    · subst hr
      simp only [care_action, Except.ok.injEq, Prod.mk.injEq] at h
      obtain ⟨rfl, rfl⟩ := h
      exact apply_growth_stage _ t
    · simp [care_action, hw, hf, hsun, htr, hr] at h
  · intro p t d
    obtain ⟨dm, dt, dl, dh⟩ := d
    rcases dm with - | m <;> rcases dl with - | l <;> exact apply_growth_stage _ t
  · intro p t
    exact apply_growth_stage _ t

theorem growth_points_monotone_stage_pure_witness :
    stageRank (stageOf 95) ≤ stageRank (stageOf 105) ∧
    new_plant.growth_points.getD 0 ≤
      (runOps new_plant [EngineOp.tick roseTemplate]).growth_points.getD 0 :=
  ⟨growth_points_monotone_stage_pure.2.2.2.2.2 95 105 (by decide),
    growth_points_monotone_stage_pure.2.1 new_plant [EngineOp.tick roseTemplate]⟩

/-- C9: a sensor reading carrying neither moisture nor light leaves
hydration, nutrition and sunlight unchanged, yet the ingest still recomputes
health_score from the current stats and still applies growth — so such a
reading adds 10 growth points exactly when the recomputed health exceeds 70
(possibly advancing the stage) and can change the stored health_score even
though no stat changed. -/
theorem empty_reading_frame_effect (p : Plant) (t : Template) (d : SensorIn)
    (hm : d.moisture = none) (hl : d.light = none) :
    (ingest_sensor p t d).hydration = p.hydration ∧
    (ingest_sensor p t d).nutrition = p.nutrition ∧
    (ingest_sensor p t d).sunlight = p.sunlight ∧
    (ingest_sensor p t d).health_score = some (compute_health p t) ∧
    (ingest_sensor p t d).growth_points =
      (if 70 < compute_health p t then some (p.growth_points.getD 0 + 10)
        else p.growth_points) ∧
    (ingest_sensor p t d).stage =
      some (stageOf ((ingest_sensor p t d).growth_points.getD 0)) := by
  obtain ⟨dm, dt, dl, dh⟩ := d
  simp only at hm hl
  subst hm hl
  refine ⟨?_, ?_, ?_, ?_, ?_, apply_growth_stage _ t⟩
  · show (apply_growth { p with health_score := some (compute_health p t) } t).hydration =
      p.hydration
    rw [apply_growth_hydration]
  · show (apply_growth { p with health_score := some (compute_health p t) } t).nutrition =
      p.nutrition
    rw [apply_growth_nutrition]
  · show (apply_growth { p with health_score := some (compute_health p t) } t).sunlight =
      p.sunlight
    rw [apply_growth_sunlight]
  · show (apply_growth { p with health_score := some (compute_health p t) } t).health_score =
      some (compute_health p t)
    rw [apply_growth_health_score]
  · show (apply_growth { p with health_score := some (compute_health p t) } t).growth_points = _
    rw [apply_growth_growth_points]
    rfl

theorem empty_reading_frame_effect_witness :
    (ingest_sensor new_plant roseTemplate tempHumidityReading).hydration =
      new_plant.hydration ∧
    (ingest_sensor new_plant roseTemplate tempHumidityReading).nutrition =
      new_plant.nutrition ∧
    (ingest_sensor new_plant roseTemplate tempHumidityReading).sunlight =
      new_plant.sunlight ∧
    (ingest_sensor new_plant roseTemplate tempHumidityReading).health_score =
      some (compute_health new_plant roseTemplate) ∧
    (ingest_sensor new_plant roseTemplate tempHumidityReading).growth_points =
      (if 70 < compute_health new_plant roseTemplate then
        some (new_plant.growth_points.getD 0 + 10)
      else new_plant.growth_points) ∧
    (ingest_sensor new_plant roseTemplate tempHumidityReading).stage =
      some (stageOf
        ((ingest_sensor new_plant roseTemplate tempHumidityReading).growth_points.getD 0)) :=
  empty_reading_frame_effect new_plant roseTemplate tempHumidityReading rfl rfl

/-- C10: `compute_health` is total on a missing or partial template: the
empty template behaves exactly like one with ideal_moisture = 50 and
ideal_light = 50, a missing plant stat reads as 0, and the score always lies
in `[0,100]`; care actions and sensor ingests on a plant whose template
reference does not resolve proceed with those defaults. -/
theorem compute_health_total_defaults (p : Plant) (t : Template) :
    (compute_health p emptyTemplate = compute_health p defaultTemplate) ∧
    (0 ≤ compute_health p t ∧ compute_health p t ≤ 100) ∧
    (compute_health { p with hydration := none } t =
      compute_health { p with hydration := some 0 } t) ∧
    (compute_health { p with nutrition := none } t =
      compute_health { p with nutrition := some 0 } t) ∧
    (compute_health { p with sunlight := none } t =
      compute_health { p with sunlight := some 0 } t) ∧
    (∀ ty ∈ recognizedTypes, ∃ q xp, care_action p emptyTemplate ty = Except.ok (q, xp)) ∧
    (∀ ty : String, care_action p emptyTemplate ty = care_action p defaultTemplate ty) ∧
    (∀ d : SensorIn, ingest_sensor p emptyTemplate d = ingest_sensor p defaultTemplate d) := by
  refine ⟨rfl, ⟨compute_health_nonneg p t, compute_health_le_hundred p t⟩, rfl, rfl, rfl,
    ?_, ?_, ?_⟩
  · intro ty hty
    simp only [recognizedTypes, List.mem_cons, List.not_mem_nil, or_false] at hty
    rcases hty with rfl | rfl | rfl | rfl | rfl
    · exact ⟨_, _, rfl⟩
    · exact ⟨_, _, rfl⟩
    · exact ⟨_, _, rfl⟩
    · exact ⟨_, _, rfl⟩
    · exact ⟨_, _, rfl⟩
  · intro ty
    by_cases hw : ty = "water"
    · subst hw; rfl
    by_cases hf : ty = "fertilize"
    · subst hf; rfl
    by_cases hsun : ty = "sunlight_add"
    · subst hsun; rfl
    by_cases htr : ty = "trim"
    · subst htr; rfl
    by_cases hr : ty = "repot"
    · subst hr; rfl
    · simp [care_action, hw, hf, hsun, htr, hr]
  · intro d
    obtain ⟨dm, dt, dl, dh⟩ := d
    rcases dm with - | m <;> rcases dl with - | l <;> rfl

theorem compute_health_total_defaults_witness :
    ∃ q xp, care_action new_plant emptyTemplate "water" = Except.ok (q, xp) :=
  (compute_health_total_defaults new_plant roseTemplate).2.2.2.2.2.1 "water" (by decide)

end PlantEngine
